import Mathlib

/-!
Shallow embedding of the scheme-eligibility matcher and progressive profiler
of the LokSarthi repository (`app/services/scheme_matcher.py`,
`app/models/schemas.py`, `app/orchestrator.py`), together with proofs of the
specification's claims about them.
-/

namespace LokSarthi

/-- `CitizenProfile` from `app/models/schemas.py` (lines 8-27): a record of
independently nullable demographic/economic attributes. -/
structure CitizenProfile where
  age : Option Int := none
  gender : Option String := none
  state : Option String := none
  district : Option String := none
  occupation : Option String := none
  category : Option String := none
  annual_income : Option Int := none
  bpl_status : Option Bool := none
  disability : Option Bool := none
  marital_status : Option String := none
  land_ownership : Option Bool := none
  education_level : Option String := none
  family_members : Option Int := none
  children_count : Option Int := none
  children_in_school : Option Bool := none
  pregnant_in_family : Option Bool := none
  senior_in_family : Option Bool := none
deriving DecidableEq, Repr

/-- The count `sum(1 for f in critical_fields if getattr(self, f) is not None)`
from `completeness_score` (schemas.py line 32). -/
def filledCount (p : CitizenProfile) : Nat :=
  (if p.age.isSome then 1 else 0) + (if p.gender.isSome then 1 else 0) +
  (if p.state.isSome then 1 else 0) + (if p.occupation.isSome then 1 else 0) +
  (if p.category.isSome then 1 else 0) + (if p.annual_income.isSome then 1 else 0)

/-- `CitizenProfile.completeness_score` (schemas.py lines 29-33): the number of
the six critical fields (age, gender, state, occupation, category,
annual_income) that are non-null, divided by six. -/
def CitizenProfile.completeness_score (p : CitizenProfile) : ℚ :=
  (filledCount p : ℚ) / 6

/-- The `eligibility` rule dictionary of a scheme: every key is optional, as in
the JSON catalog consumed by `_passes_filter` (scheme_matcher.py lines 21-77).
A key absent from the dict is `none`. -/
structure Rules where
  age_min : Option Int := none
  age_max : Option Int := none
  gender : Option (List String) := none
  states : Option (List String) := none
  occupations : Option (List String) := none
  categories : Option (List String) := none
  income_max : Option Int := none
  bpl_required : Option Bool := none
  disability_required : Option Bool := none
  disability : Option Bool := none
  land_required : Option Bool := none
  marital_status : Option (List String) := none
deriving DecidableEq, Repr

/-- Python's `not rules` on the eligibility dict: true exactly when no rule key
is present. -/
def Rules.isEmptyDict (r : Rules) : Bool :=
  r.age_min.isNone && r.age_max.isNone && r.gender.isNone && r.states.isNone &&
  r.occupations.isNone && r.categories.isNone && r.income_max.isNone &&
  r.bpl_required.isNone && r.disability_required.isNone && r.disability.isNone &&
  r.land_required.isNone && r.marital_status.isNone

/-- A scheme record, as consumed by the matcher: the fields the matcher reads. -/
structure Scheme where
  name : String := ""
  benefit_amount : String := ""
  eligibility : Rules := {}
deriving DecidableEq, Repr

/-- Python's case-insensitive normalization `s.lower()`, character-wise. -/
def pyLower (s : String) : String := ⟨s.data.map Char.toLower⟩

/-- Age filter block of `_passes_filter` (lines 24-30): reject when an age bound
is present, the profile age is known, and the bound is violated. -/
def ageOk (p : CitizenProfile) (r : Rules) : Bool :=
  (match r.age_min, p.age with
   | some m, some a => !(a < m)
   | _, _ => true) &&
  (match r.age_max, p.age with
   | some m, some a => !(a > m)
   | _, _ => true)

/-- Gender filter block (lines 32-35). -/
def genderOk (p : CitizenProfile) (r : Rules) : Bool :=
  match r.gender, p.gender with
  | some gs, some g => gs.contains g
  | _, _ => true

/-- State filter block (lines 37-40): case-insensitive membership. -/
def stateOk (p : CitizenProfile) (r : Rules) : Bool :=
  match r.states, p.state with
  | some ss, some s => (ss.map pyLower).contains (pyLower s)
  | _, _ => true

/-- Occupation filter block (lines 42-45). -/
def occupationOk (p : CitizenProfile) (r : Rules) : Bool :=
  match r.occupations, p.occupation with
  | some os, some o => os.contains o
  | _, _ => true

/-- Category filter block (lines 47-50). -/
def categoryOk (p : CitizenProfile) (r : Rules) : Bool :=
  match r.categories, p.category with
  | some cs, some c => cs.contains c
  | _, _ => true

/-- Income filter block (lines 52-55). -/
def incomeOk (p : CitizenProfile) (r : Rules) : Bool :=
  match r.income_max, p.annual_income with
  | some m, some a => !(a > m)
  | _, _ => true

/-- BPL filter block (lines 57-60): `rules.get("bpl_required")` truthiness. -/
def bplOk (p : CitizenProfile) (r : Rules) : Bool :=
  if r.bpl_required.getD false then
    match p.bpl_status with
    | some b => b
    | none => true
  else true

/-- Disability filter block (lines 62-65): the rule triggers on either the
`disability_required` key or its `disability` alias; it rejects only when
`profile.disability` is known and false. -/
def disabilityOk (p : CitizenProfile) (r : Rules) : Bool :=
  if r.disability_required.getD false || r.disability.getD false then
    match p.disability with
    | some d => d
    | none => true
  else true

/-- Land-ownership filter block (lines 67-70). -/
def landOk (p : CitizenProfile) (r : Rules) : Bool :=
  if r.land_required.getD false then
    match p.land_ownership with
    | some l => l
    | none => true
  else true

/-- Marital-status filter block (lines 72-75). -/
def maritalOk (p : CitizenProfile) (r : Rules) : Bool :=
  match r.marital_status, p.marital_status with
  | some ms, some m => ms.contains m
  | _, _ => true

/-- `_passes_filter` (scheme_matcher.py lines 21-77): the conjunction of all
filter blocks; the Python early returns make it exactly this conjunction. -/
def _passes_filter (p : CitizenProfile) (r : Rules) : Bool :=
  ageOk p r && genderOk p r && stateOk p r && occupationOk p r &&
  categoryOk p r && incomeOk p r && bplOk p r && disabilityOk p r &&
  landOk p r && maritalOk p r

/-- Does `pat` occur at the start of `hay` (character lists)? -/
def listStarts : List Char → List Char → Bool
  | [], _ => true
  | _ :: _, [] => false
  | a :: as, b :: bs => a == b && listStarts as bs

/-- Python's substring test `pat in hay` on character lists. -/
def listHas (pat : List Char) : List Char → Bool
  | [] => pat.isEmpty
  | h :: t => listStarts pat (h :: t) || listHas pat t

/-- Python's `pat in hay` on strings. -/
def strHas (pat hay : String) : Bool := listHas pat.data hay.data

/-- Occupation-bonus condition of `_relevance_score` (lines 86-88):
`"occupations" in rules and profile.occupation` (truthiness: a known, non-empty
occupation) `and profile.occupation in rules["occupations"]`. -/
def occBonus (p : CitizenProfile) (r : Rules) : Bool :=
  match r.occupations, p.occupation with
  | some os, some o => !(o == "") && os.contains o
  | _, _ => false

/-- Category-bonus condition (lines 90-92). -/
def catBonus (p : CitizenProfile) (r : Rules) : Bool :=
  match r.categories, p.category with
  | some cs, some c => !(c == "") && cs.contains c
  | _, _ => false

/-- Gender-bonus condition (lines 94-96). -/
def genBonus (p : CitizenProfile) (r : Rules) : Bool :=
  match r.gender, p.gender with
  | some gs, some g => !(g == "") && gs.contains g
  | _, _ => false

/-- BPL-bonus condition (lines 98-99): scheme requires BPL and the profile
confirms BPL (`profile.bpl_status` truthy). -/
def bplBonus (p : CitizenProfile) (r : Rules) : Bool :=
  r.bpl_required.getD false && p.bpl_status.getD false

/-- High-value-benefit condition (lines 101-104): `"lakh" in benefit.lower() or
"₹5,00,000" in benefit`. -/
def benefitBonus (s : Scheme) : Bool :=
  strHas "lakh" (pyLower s.benefit_amount) || strHas "₹5,00,000" s.benefit_amount

/-- Score as a function of the five bonus conditions: base 50, additive
bonuses, capped at 100 (scheme_matcher.py lines 82-106). -/
def scoreAux (c1 c2 c3 c4 c5 : Bool) : Nat :=
  min (50 + (if c1 then 15 else 0) + (if c2 then 10 else 0) +
       (if c3 then 10 else 0) + (if c4 then 10 else 0) + (if c5 then 5 else 0)) 100

/-- `_relevance_score` (scheme_matcher.py lines 80-106). -/
def _relevance_score (p : CitizenProfile) (s : Scheme) : Nat :=
  scoreAux (occBonus p s.eligibility) (catBonus p s.eligibility)
    (genBonus p s.eligibility) (bplBonus p s.eligibility) (benefitBonus s)

/-- A `{scheme, score}` candidate entry of `match_schemes`. -/
structure MatchResult where
  scheme : Scheme
  score : Nat
deriving DecidableEq, Repr

/-- The candidate-collection loop of `match_schemes` (lines 119-128): a scheme
enters the candidate list, in catalog order, when its eligibility rules are
empty or it passes the filter. -/
def candidates (p : CitizenProfile) : List Scheme → List MatchResult
  | [] => []
  | s :: rest =>
    if s.eligibility.isEmptyDict || _passes_filter p s.eligibility then
      { scheme := s, score := _relevance_score p s } :: candidates p rest
    else candidates p rest

/-- Stable insertion into a list sorted by score descending: an element goes
before the first entry whose score is not larger, so earlier elements keep
priority on ties — the behavior of Python's stable `list.sort` with
`key=score, reverse=True`. -/
def insertDesc (m : MatchResult) : List MatchResult → List MatchResult
  | [] => [m]
  | y :: l => if m.score ≥ y.score then m :: y :: l else y :: insertDesc m l

/-- Stable sort by score descending (line 131: `matches.sort(key=..., reverse=True)`). -/
def sortDesc : List MatchResult → List MatchResult
  | [] => []
  | m :: l => insertDesc m (sortDesc l)

/-- `match_schemes` (scheme_matcher.py lines 109-132), with the lazily-loaded
catalog made an explicit argument: filter+score every scheme, sort by score
descending (stable), truncate to `max_results` (default 7). -/
def match_schemes (p : CitizenProfile) (catalog : List Scheme)
    (max_results : Nat := 7) : List MatchResult :=
  (sortDesc (candidates p catalog)).take max_results

/-- `get_profiling_question` (scheme_matcher.py lines 135-163). -/
def get_profiling_question (p : CitizenProfile) : Option String :=
  if p.completeness_score ≥ (0.8 : ℚ) then none
  else if p.age.isNone then some "age"
  else if p.gender.isNone then some "gender"
  else if p.state.isNone then some "state"
  else if p.occupation.isNone then some "occupation"
  else if p.category.isNone then some "category"
  else if p.annual_income.isNone then some "income"
  else if p.marital_status.isNone then some "marital_status"
  else if p.bpl_status.isNone then some "bpl"
  else none

/-- Modelled from the spec (§4.4 transition rule), for comparison with the
code: scan the eight fields in the fixed priority order age → gender → state →
occupation → category → income → marital_status → bpl_status and return the
identifier of the first field that is still null, or nothing when all eight are
set. -/
def firstNullFieldSpec (p : CitizenProfile) : Option String :=
  if p.age.isNone then some "age"
  else if p.gender.isNone then some "gender"
  else if p.state.isNone then some "state"
  else if p.occupation.isNone then some "occupation"
  else if p.category.isNone then some "category"
  else if p.annual_income.isNone then some "income"
  else if p.marital_status.isNone then some "marital_status"
  else if p.bpl_status.isNone then some "bpl"
  else none

/-- All eight scanned fields are non-null. -/
def allEightSet (p : CitizenProfile) : Bool :=
  p.age.isSome && p.gender.isSome && p.state.isSome && p.occupation.isSome &&
  p.category.isSome && p.annual_income.isSome && p.marital_status.isSome &&
  p.bpl_status.isSome

/-- `PROFILE_QUESTIONS` (orchestrator.py lines 12-45): question key → (Hindi
text, English text). -/
def PROFILE_QUESTIONS : List (String × String × String) :=
  [("age", ("🙏 आपकी उम्र कितनी है?", "🙏 What is your age?")),
   ("gender", ("आप पुरुष हैं या महिला?", "Are you male or female?")),
   ("state", ("आप किस राज्य में रहते हैं?", "Which state do you live in?")),
   ("occupation", ("आप क्या काम करते हैं? (किसान, मज़दूर, दुकानदार, छात्र, गृहिणी...)",
     "What is your occupation? (farmer, labourer, vendor, student, homemaker...)")),
   ("category", ("आपकी श्रेणी क्या है? (सामान्य, SC, ST, OBC, अल्पसंख्यक)",
     "What is your category? (General, SC, ST, OBC, Minority)")),
   ("income", ("आपकी सालाना आय (कमाई) लगभग कितनी है?",
     "What is your approximate annual income?")),
   ("marital_status", ("आपकी वैवाहिक स्थिति क्या है? (विवाहित, अविवाहित, विधवा/विधुर)",
     "What is your marital status? (married, single, widowed)")),
   ("bpl", ("क्या आपके पास BPL (गरीबी रेखा से नीचे) कार्ड है?",
     "Do you have a BPL (Below Poverty Line) card?"))]

/-- Outcome of one turn of `_handle_scheme_discovery`: either a single
profiling question (identified by its question key) or the matcher's results. -/
inductive DiscoveryResult where
  | question (key : String)
  | matched (ms : List MatchResult)
deriving DecidableEq, Repr

/-- The branch structure of `_handle_scheme_discovery` (orchestrator.py lines
167-196): ask the pending profiling question when there is one and the
completeness score is below 0.5; otherwise run `match_schemes` on the profile
(default `max_results`) and return its matches. -/
def handleSchemeDiscovery (p : CitizenProfile) (catalog : List Scheme) :
    DiscoveryResult :=
  match get_profiling_question p with
  | some q =>
    if p.completeness_score < (0.5 : ℚ) then .question q
    else .matched (match_schemes p catalog)
  | none => .matched (match_schemes p catalog)

/-- A JSON-ish value as stored in a profile dict entry. -/
inductive Val where
  | i (n : Int)
  | s (v : String)
  | b (v : Bool)
deriving DecidableEq, Repr

/-- One optional dict entry: present exactly when the field is non-null. -/
def entry (k : String) (v : Option Val) : List (String × Val) :=
  match v with
  | none => []
  | some x => [(k, x)]

/-- `CitizenProfile.to_dict` (schemas.py lines 35-36): the field/value pairs of
the dataclass, in declaration order, with all null fields omitted. -/
def CitizenProfile.to_dict (p : CitizenProfile) : List (String × Val) :=
  entry "age" (p.age.map .i) ++ entry "gender" (p.gender.map .s) ++
  entry "state" (p.state.map .s) ++ entry "district" (p.district.map .s) ++
  entry "occupation" (p.occupation.map .s) ++ entry "category" (p.category.map .s) ++
  entry "annual_income" (p.annual_income.map .i) ++
  entry "bpl_status" (p.bpl_status.map .b) ++
  entry "disability" (p.disability.map .b) ++
  entry "marital_status" (p.marital_status.map .s) ++
  entry "land_ownership" (p.land_ownership.map .b) ++
  entry "education_level" (p.education_level.map .s) ++
  entry "family_members" (p.family_members.map .i) ++
  entry "children_count" (p.children_count.map .i) ++
  entry "children_in_school" (p.children_in_school.map .b) ++
  entry "pregnant_in_family" (p.pregnant_in_family.map .b) ++
  entry "senior_in_family" (p.senior_in_family.map .b)

/-- Decode an integer-valued dict entry. -/
def asInt : Val → Option Int
  | .i n => some n
  | _ => none

/-- Decode a string-valued dict entry. -/
def asStr : Val → Option String
  | .s v => some v
  | _ => none

/-- Decode a boolean-valued dict entry. -/
def asBool : Val → Option Bool
  | .b v => some v
  | _ => none

/-- `CitizenProfile(**data)` as performed by `Session.from_dict` (schemas.py
line 79): each keyword present in the dict sets the field; absent keys keep the
dataclass default `None`. -/
def profileFromDict (d : List (String × Val)) : CitizenProfile :=
  { age := (d.lookup "age").bind asInt,
    gender := (d.lookup "gender").bind asStr,
    state := (d.lookup "state").bind asStr,
    district := (d.lookup "district").bind asStr,
    occupation := (d.lookup "occupation").bind asStr,
    category := (d.lookup "category").bind asStr,
    annual_income := (d.lookup "annual_income").bind asInt,
    bpl_status := (d.lookup "bpl_status").bind asBool,
    disability := (d.lookup "disability").bind asBool,
    marital_status := (d.lookup "marital_status").bind asStr,
    land_ownership := (d.lookup "land_ownership").bind asBool,
    education_level := (d.lookup "education_level").bind asStr,
    family_members := (d.lookup "family_members").bind asInt,
    children_count := (d.lookup "children_count").bind asInt,
    children_in_school := (d.lookup "children_in_school").bind asBool,
    pregnant_in_family := (d.lookup "pregnant_in_family").bind asBool,
    senior_in_family := (d.lookup "senior_in_family").bind asBool }

/-- The empty profile: every field null. -/
def emptyProfile : CitizenProfile := {}

/-- The profile of spec Scenario A (§8). -/
def scenarioAProfile : CitizenProfile :=
  { age := some 35, gender := some "female", state := some "Bihar",
    occupation := some "farmer", category := some "general",
    annual_income := some 80000 }

/-- The rule set of spec Scenario A (§8). -/
def scenarioARules : Rules :=
  { occupations := some ["farmer"], income_max := some 200000 }

/-- A scheme carrying the Scenario A rule set. -/
def scenarioAScheme : Scheme :=
  { name := "PM-KISAN", benefit_amount := "₹6,000", eligibility := scenarioARules }

/-- Scenario A profile additionally confirming BPL status. -/
def scenarioABplProfile : CitizenProfile :=
  { scenarioAProfile with bpl_status := some true }

/-- A profile with all eight scanned fields non-null. -/
def fullProfile : CitizenProfile :=
  { age := some 35, gender := some "female", state := some "Bihar",
    occupation := some "farmer", category := some "general",
    annual_income := some 80000, marital_status := some "married",
    bpl_status := some false }

/-- A scheme with an empty eligibility rule set (universally eligible). -/
def universalScheme : Scheme :=
  { name := "Universal", benefit_amount := "₹1,000", eligibility := {} }

/-- A rule set only a 60-or-younger citizen passes. -/
def ageCapRules : Rules := { age_max := some 60 }

/-- A 70-year-old profile (spec Scenario B). -/
def seniorProfile : CitizenProfile := { age := some 70 }

/-- A scheme carrying the age-cap rule set. -/
def ageCapScheme : Scheme :=
  { name := "Youth", benefit_amount := "₹500", eligibility := ageCapRules }

/-- A BPL-required farmer scheme with a high-value benefit text. -/
def highValueBplScheme : Scheme :=
  { name := "Ayushman", benefit_amount := "₹5 lakh health cover",
    eligibility := { occupations := some ["farmer"], income_max := some 200000,
                     bpl_required := some true } }

/-! ### Helper lemmas -/

/-- The completeness threshold test `completeness_score() >= 0.8` is the
integer test `24 ≤ 5 * filledCount`. -/
lemma ge_08_iff (p : CitizenProfile) :
    ((0.8 : ℚ) ≤ p.completeness_score) ↔ 24 ≤ 5 * filledCount p := by
  rw [CitizenProfile.completeness_score, le_div_iff₀ (by norm_num : (0:ℚ) < 6)]
  constructor
  · intro h
    have h' : (24 : ℚ) ≤ 5 * (filledCount p : ℚ) := by linarith
    exact_mod_cast h'
  · intro h
    have h' : (24 : ℚ) ≤ 5 * (filledCount p : ℚ) := by exact_mod_cast h
    linarith

/-- The caller threshold test `completeness_score() < 0.5` is the integer test
`filledCount < 3`. -/
lemma lt_05_iff (p : CitizenProfile) :
    (p.completeness_score < (0.5 : ℚ)) ↔ filledCount p < 3 := by
  rw [CitizenProfile.completeness_score, div_lt_iff₀ (by norm_num : (0:ℚ) < 6)]
  rw [show ((0.5:ℚ) * 6) = 3 by norm_num]
  exact_mod_cast Iff.rfl

/-- `get_profiling_question` rewritten over the integer threshold test; its
else-branch is exactly the spec's priority scan. -/
lemma gpq_eq (p : CitizenProfile) :
    get_profiling_question p =
      if 24 ≤ 5 * filledCount p then none else firstNullFieldSpec p := by
  rw [get_profiling_question, firstNullFieldSpec]
  by_cases h : 24 ≤ 5 * filledCount p
  · rw [if_pos ((ge_08_iff p).mpr h), if_pos h]
  · rw [if_neg (fun hc => h ((ge_08_iff p).mp hc)), if_neg h]

/-- When all eight scanned fields are set, all six critical fields are set. -/
lemma filledCount_of_allEight (p : CitizenProfile) (h : allEightSet p = true) :
    filledCount p = 6 := by
  rw [allEightSet] at h
  simp only [Bool.and_eq_true] at h
  rw [filledCount]
  rw [h.1.1.1.1.1.1.1, h.1.1.1.1.1.1.2, h.1.1.1.1.1.2, h.1.1.1.1.2, h.1.1.1.2,
    h.1.1.2]
  rfl

/-! ### Claim C1 -/

/-- C1 (counterexample): the Scenario A profile has completeness score ≥ 0.8
(all six critical fields set) while `marital_status` and `bpl_status` are still
null, yet `get_profiling_question` reports the profile complete (`none`) rather
than the pending `marital_status` question, refuting the claim as stated. -/
theorem C1_counterexample_completeness_silences_pending :
    (0.8 : ℚ) ≤ scenarioAProfile.completeness_score ∧
    scenarioAProfile.marital_status = none ∧
    scenarioAProfile.bpl_status = none ∧
    get_profiling_question scenarioAProfile = none :=
  ⟨(ge_08_iff scenarioAProfile).mpr (by decide), rfl, rfl,
    (gpq_eq scenarioAProfile).trans (by decide)⟩

/-- C1 (amended): for every profile whose completeness score is at least 0.8,
`get_profiling_question` reports the profile complete (returns no question),
even when `marital_status` or `bpl_status` is still null; pending
marital-status/BPL questions are only reported while the completeness score is
below 0.8. -/
theorem C1_completeness_threshold_reports_complete (p : CitizenProfile)
    (h : (0.8 : ℚ) ≤ p.completeness_score) :
    get_profiling_question p = none := by
  rw [gpq_eq, if_pos ((ge_08_iff p).mp h)]

/-- Witness for C1: the amended claim applied to the Scenario A profile. -/
theorem C1_completeness_threshold_reports_complete_witness :
    (0.8 : ℚ) ≤ scenarioAProfile.completeness_score ∧
    get_profiling_question scenarioAProfile = none :=
  ⟨(ge_08_iff scenarioAProfile).mpr (by decide),
    C1_completeness_threshold_reports_complete scenarioAProfile
      ((ge_08_iff scenarioAProfile).mpr (by decide))⟩

/-! ### Claim C2 -/

/-- C2: for every profile with completeness score below 0.8,
`get_profiling_question` returns the identifier of the first null field in the
fixed priority order age → gender → state → occupation → category → income →
marital_status → bpl_status (the spec-side scan `firstNullFieldSpec`); and once
all eight fields are non-null it returns no further question. -/
theorem C2_fixed_priority_order (p : CitizenProfile) :
    (p.completeness_score < (0.8 : ℚ) →
      get_profiling_question p = firstNullFieldSpec p) ∧
    (allEightSet p = true → get_profiling_question p = none) := by
  constructor
  · intro h
    rw [gpq_eq, if_neg]
    intro hc
    exact absurd ((ge_08_iff p).mpr hc) (not_le.mpr h)
  · intro h
    rw [gpq_eq, if_pos (by rw [filledCount_of_allEight p h]; omega)]

/-- Witness for C2: on the empty profile (completeness 0 < 0.8) the question is
the priority scan's first null field, namely "age"; on a fully-scanned profile
no question remains. -/
theorem C2_fixed_priority_order_witness :
    (emptyProfile.completeness_score < (0.8 : ℚ) ∧
      get_profiling_question emptyProfile = firstNullFieldSpec emptyProfile ∧
      firstNullFieldSpec emptyProfile = some "age") ∧
    (allEightSet fullProfile = true ∧ get_profiling_question fullProfile = none) := by
  have h : emptyProfile.completeness_score < (0.8 : ℚ) :=
    not_le.mp (fun hc => absurd ((ge_08_iff emptyProfile).mp hc) (by decide))
  exact ⟨⟨h, (C2_fixed_priority_order emptyProfile).1 h, by decide⟩,
    ⟨by decide, (C2_fixed_priority_order fullProfile).2 (by decide)⟩⟩

/-! ### Claim C9 -/

/-- C9: every non-`none` value of `get_profiling_question` is one of the eight
literal identifiers "age", "gender", "state", "occupation", "category",
"income", "marital_status", "bpl" (note "income", not "annual_income", and
"bpl", not "bpl_status"), and each is a key of the orchestrator's
`PROFILE_QUESTIONS` table. -/
theorem C9_question_identifiers (p : CitizenProfile) (q : String)
    (h : get_profiling_question p = some q) :
    q ∈ ["age", "gender", "state", "occupation", "category", "income",
      "marital_status", "bpl"] ∧ (PROFILE_QUESTIONS.lookup q).isSome = true := by
  rw [gpq_eq] at h
  by_cases hc : 24 ≤ 5 * filledCount p
  · rw [if_pos hc] at h; cases h
  · rw [if_neg hc, firstNullFieldSpec] at h
    repeat' split at h
    all_goals cases h
    all_goals exact ⟨by decide, by decide⟩

/-- Witness for C9: the empty profile's question "age" is among the eight
identifiers and is a `PROFILE_QUESTIONS` key. -/
theorem C9_question_identifiers_witness :
    "age" ∈ ["age", "gender", "state", "occupation", "category", "income",
      "marital_status", "bpl"] ∧
    (PROFILE_QUESTIONS.lookup "age").isSome = true :=
  C9_question_identifiers emptyProfile "age"
    ((gpq_eq emptyProfile).trans (by decide))

/-! ### Claim C3 -/

/-- The age block rejects only a known age. -/
lemma ageOk_false (p : CitizenProfile) (r : Rules) (h : ageOk p r = false) :
    p.age.isSome = true := by
  cases hp : p.age with
  | some a => rfl
  | none =>
    rw [ageOk, hp] at h
    cases r.age_min <;> cases r.age_max <;> simp at h

/-- The gender block rejects only a known gender. -/
lemma genderOk_false (p : CitizenProfile) (r : Rules) (h : genderOk p r = false) :
    p.gender.isSome = true := by
  cases hp : p.gender with
  | some g => rfl
  | none => rw [genderOk, hp] at h; cases r.gender <;> simp at h

/-- The state block rejects only a known state. -/
lemma stateOk_false (p : CitizenProfile) (r : Rules) (h : stateOk p r = false) :
    p.state.isSome = true := by
  cases hp : p.state with
  | some s => rfl
  | none => rw [stateOk, hp] at h; cases r.states <;> simp at h

/-- The occupation block rejects only a known occupation. -/
lemma occupationOk_false (p : CitizenProfile) (r : Rules)
    (h : occupationOk p r = false) : p.occupation.isSome = true := by
  cases hp : p.occupation with
  | some o => rfl
  | none => rw [occupationOk, hp] at h; cases r.occupations <;> simp at h

/-- The category block rejects only a known category. -/
lemma categoryOk_false (p : CitizenProfile) (r : Rules)
    (h : categoryOk p r = false) : p.category.isSome = true := by
  cases hp : p.category with
  | some c => rfl
  | none => rw [categoryOk, hp] at h; cases r.categories <;> simp at h

/-- The income block rejects only a known income. -/
lemma incomeOk_false (p : CitizenProfile) (r : Rules) (h : incomeOk p r = false) :
    p.annual_income.isSome = true := by
  cases hp : p.annual_income with
  | some a => rfl
  | none => rw [incomeOk, hp] at h; cases r.income_max <;> simp at h

/-- The BPL block rejects only a known BPL status. -/
lemma bplOk_false (p : CitizenProfile) (r : Rules) (h : bplOk p r = false) :
    p.bpl_status.isSome = true := by
  cases hp : p.bpl_status with
  | some b => rfl
  | none => rw [bplOk, hp] at h; revert h; split <;> simp

/-- The disability block rejects only a known disability status. -/
lemma disabilityOk_false (p : CitizenProfile) (r : Rules)
    (h : disabilityOk p r = false) : p.disability.isSome = true := by
  cases hp : p.disability with
  | some d => rfl
  | none => rw [disabilityOk, hp] at h; revert h; split <;> simp

/-- The land-ownership block rejects only a known land-ownership status. -/
lemma landOk_false (p : CitizenProfile) (r : Rules) (h : landOk p r = false) :
    p.land_ownership.isSome = true := by
  cases hp : p.land_ownership with
  | some l => rfl
  | none => rw [landOk, hp] at h; revert h; split <;> simp

/-- The marital-status block rejects only a known marital status. -/
lemma maritalOk_false (p : CitizenProfile) (r : Rules)
    (h : maritalOk p r = false) : p.marital_status.isSome = true := by
  cases hp : p.marital_status with
  | some m => rfl
  | none => rw [maritalOk, hp] at h; cases r.marital_status <;> simp at h

/-- C3: whenever `_passes_filter` rejects a profile, some filter block whose
corresponding profile field is non-null is the one that failed; a rule over a
null profile field never causes rejection. -/
theorem C3_null_field_never_rejects (p : CitizenProfile) (r : Rules)
    (h : _passes_filter p r = false) :
    (p.age.isSome = true ∧ ageOk p r = false) ∨
    (p.gender.isSome = true ∧ genderOk p r = false) ∨
    (p.state.isSome = true ∧ stateOk p r = false) ∨
    (p.occupation.isSome = true ∧ occupationOk p r = false) ∨
    (p.category.isSome = true ∧ categoryOk p r = false) ∨
    (p.annual_income.isSome = true ∧ incomeOk p r = false) ∨
    (p.bpl_status.isSome = true ∧ bplOk p r = false) ∨
    (p.disability.isSome = true ∧ disabilityOk p r = false) ∨
    (p.land_ownership.isSome = true ∧ landOk p r = false) ∨
    (p.marital_status.isSome = true ∧ maritalOk p r = false) := by
  by_cases h1 : ageOk p r = false
  · exact Or.inl ⟨ageOk_false p r h1, h1⟩
  by_cases h2 : genderOk p r = false
  · exact Or.inr (Or.inl ⟨genderOk_false p r h2, h2⟩)
  by_cases h3 : stateOk p r = false
  · exact Or.inr (Or.inr (Or.inl ⟨stateOk_false p r h3, h3⟩))
  by_cases h4 : occupationOk p r = false
  · exact Or.inr (Or.inr (Or.inr (Or.inl ⟨occupationOk_false p r h4, h4⟩)))
  by_cases h5 : categoryOk p r = false
  · exact Or.inr (Or.inr (Or.inr (Or.inr (Or.inl
      ⟨categoryOk_false p r h5, h5⟩))))
  by_cases h6 : incomeOk p r = false
  · exact Or.inr (Or.inr (Or.inr (Or.inr (Or.inr (Or.inl
      ⟨incomeOk_false p r h6, h6⟩)))))
  by_cases h7 : bplOk p r = false
  · exact Or.inr (Or.inr (Or.inr (Or.inr (Or.inr (Or.inr (Or.inl
      ⟨bplOk_false p r h7, h7⟩))))))
  by_cases h8 : disabilityOk p r = false
  · exact Or.inr (Or.inr (Or.inr (Or.inr (Or.inr (Or.inr (Or.inr (Or.inl
      ⟨disabilityOk_false p r h8, h8⟩)))))))
  by_cases h9 : landOk p r = false
  · exact Or.inr (Or.inr (Or.inr (Or.inr (Or.inr (Or.inr (Or.inr (Or.inr
      (Or.inl ⟨landOk_false p r h9, h9⟩))))))))
  by_cases h10 : maritalOk p r = false
  · exact Or.inr (Or.inr (Or.inr (Or.inr (Or.inr (Or.inr (Or.inr (Or.inr
      (Or.inr ⟨maritalOk_false p r h10, h10⟩))))))))
  exfalso
  simp only [Bool.not_eq_false] at h1 h2 h3 h4 h5 h6 h7 h8 h9 h10
  rw [_passes_filter, h1, h2, h3, h4, h5, h6, h7, h8, h9, h10] at h
  simp at h

/-- Witness for C3: the 70-year-old profile fails the `age_max: 60` rule set,
and the theorem locates the failure at the (known) age field. -/
theorem C3_null_field_never_rejects_witness :
    (seniorProfile.age.isSome = true ∧ ageOk seniorProfile ageCapRules = false) ∨
    (seniorProfile.gender.isSome = true ∧ genderOk seniorProfile ageCapRules = false) ∨
    (seniorProfile.state.isSome = true ∧ stateOk seniorProfile ageCapRules = false) ∨
    (seniorProfile.occupation.isSome = true ∧ occupationOk seniorProfile ageCapRules = false) ∨
    (seniorProfile.category.isSome = true ∧ categoryOk seniorProfile ageCapRules = false) ∨
    (seniorProfile.annual_income.isSome = true ∧ incomeOk seniorProfile ageCapRules = false) ∨
    (seniorProfile.bpl_status.isSome = true ∧ bplOk seniorProfile ageCapRules = false) ∨
    (seniorProfile.disability.isSome = true ∧ disabilityOk seniorProfile ageCapRules = false) ∨
    (seniorProfile.land_ownership.isSome = true ∧ landOk seniorProfile ageCapRules = false) ∨
    (seniorProfile.marital_status.isSome = true ∧ maritalOk seniorProfile ageCapRules = false) :=
  C3_null_field_never_rejects seniorProfile ageCapRules (by decide)

/-! ### Claim C4 -/

/-- The score, as a function of the five bonus flags, lies in [50, 100]. -/
lemma scoreAux_range : ∀ c1 c2 c3 c4 c5 : Bool,
    50 ≤ scoreAux c1 c2 c3 c4 c5 ∧ scoreAux c1 c2 c3 c4 c5 ≤ 100 := by decide

/-- The score is monotone in the five bonus flags. -/
lemma scoreAux_mono : ∀ c1 c2 c3 c4 c5 d1 d2 d3 d4 d5 : Bool,
    (c1 = true → d1 = true) → (c2 = true → d2 = true) →
    (c3 = true → d3 = true) → (c4 = true → d4 = true) →
    (c5 = true → d5 = true) →
    scoreAux c1 c2 c3 c4 c5 ≤ scoreAux d1 d2 d3 d4 d5 := by decide

/-- C4: the relevance score is base 50 plus independent bonuses (+15
occupation, +10 category, +10 gender, +10 confirmed BPL on a BPL-required
scheme, +5 high-value benefit text) capped at 100; it lies in [50, 100]; it is
monotone as more bonus conditions are satisfied; and the Scenario A profile
passes the Scenario A rule set with score 65. -/
theorem C4_relevance_score (p : CitizenProfile) (s : Scheme)
    (p' : CitizenProfile) (s' : Scheme) :
    (50 ≤ _relevance_score p s ∧ _relevance_score p s ≤ 100) ∧
    _relevance_score p s =
      min (50 + (if occBonus p s.eligibility then 15 else 0) +
        (if catBonus p s.eligibility then 10 else 0) +
        (if genBonus p s.eligibility then 10 else 0) +
        (if bplBonus p s.eligibility then 10 else 0) +
        (if benefitBonus s then 5 else 0)) 100 ∧
    ((occBonus p s.eligibility = true → occBonus p' s'.eligibility = true) →
     (catBonus p s.eligibility = true → catBonus p' s'.eligibility = true) →
     (genBonus p s.eligibility = true → genBonus p' s'.eligibility = true) →
     (bplBonus p s.eligibility = true → bplBonus p' s'.eligibility = true) →
     (benefitBonus s = true → benefitBonus s' = true) →
     _relevance_score p s ≤ _relevance_score p' s') ∧
    (_passes_filter scenarioAProfile scenarioARules = true ∧
     _relevance_score scenarioAProfile scenarioAScheme = 65) :=
  ⟨scoreAux_range _ _ _ _ _, rfl,
    fun h1 h2 h3 h4 h5 => scoreAux_mono _ _ _ _ _ _ _ _ _ _ h1 h2 h3 h4 h5,
    by decide, by decide⟩

/-- Witness for C4: moving from the Scenario A pairing (score 65) to a
BPL-confirming profile on a BPL-required, high-benefit scheme (score 80)
satisfies every bonus implication, and the score does not decrease. -/
theorem C4_relevance_score_witness :
    _relevance_score scenarioAProfile scenarioAScheme = 65 ∧
    _relevance_score scenarioABplProfile highValueBplScheme = 80 ∧
    _relevance_score scenarioAProfile scenarioAScheme ≤
      _relevance_score scenarioABplProfile highValueBplScheme :=
  ⟨by decide, by decide,
    (C4_relevance_score scenarioAProfile scenarioAScheme scenarioABplProfile
      highValueBplScheme).2.2.1 (by decide) (by decide) (by decide) (by decide)
      (by decide)⟩

/-! ### Claims C5, C6, C7 — sorting, truncation, universal eligibility -/

/-- Membership through stable insertion. -/
lemma insertDesc_mem (m x : MatchResult) (l : List MatchResult) :
    x ∈ insertDesc m l ↔ x = m ∨ x ∈ l := by
  induction l with
  | nil => simp [insertDesc]
  | cons y t ih =>
    rw [insertDesc]
    split
    · simp
    · simp only [List.mem_cons, ih]
      tauto

/-- Membership through the stable sort. -/
lemma sortDesc_mem (x : MatchResult) (l : List MatchResult) :
    x ∈ sortDesc l ↔ x ∈ l := by
  induction l with
  | nil => simp [sortDesc]
  | cons y t ih => rw [sortDesc, insertDesc_mem]; simp [ih]

/-- Stable insertion preserves descending order. -/
lemma insertDesc_sorted (m : MatchResult) (l : List MatchResult)
    (h : l.Pairwise (fun a b => b.score ≤ a.score)) :
    (insertDesc m l).Pairwise (fun a b => b.score ≤ a.score) := by
  induction l with
  | nil => simp [insertDesc]
  | cons y t ih =>
    rw [insertDesc]
    rw [List.pairwise_cons] at h
    split
    · rename_i hge
      rw [List.pairwise_cons]
      refine ⟨?_, List.pairwise_cons.mpr h⟩
      intro b hb
      rcases List.mem_cons.mp hb with rfl | hbt
      · exact hge
      · exact (h.1 b hbt).trans hge
    · rename_i hlt
      rw [List.pairwise_cons]
      refine ⟨?_, ih h.2⟩
      intro b hb
      rcases (insertDesc_mem m b t).mp hb with rfl | hbt
      · omega
      · exact h.1 b hbt

/-- The sorted candidate list is in descending score order. -/
lemma sortDesc_sorted (l : List MatchResult) :
    (sortDesc l).Pairwise (fun a b => b.score ≤ a.score) := by
  induction l with
  | nil => simp [sortDesc]
  | cons y t ih => exact insertDesc_sorted y (sortDesc t) ih

/-- Stability of insertion: the subsequence of entries at any fixed score is
untouched (the inserted element lands before exactly the strictly-smaller
scores). -/
lemma insertDesc_filter (m : MatchResult) (l : List MatchResult) (c : Nat) :
    (insertDesc m l).filter (fun x => x.score == c) =
      (m :: l).filter (fun x => x.score == c) := by
  induction l with
  | nil => rfl
  | cons y t ih =>
    rw [insertDesc]
    split
    · rfl
    · rename_i hlt
      by_cases hc : m.score = c
      · have hyc : (y.score == c) = false := by
          rw [beq_eq_false_iff_ne]
          omega
        simp [List.filter_cons, hyc, hc, ih]
      · have hc' : (m.score == c) = false := beq_eq_false_iff_ne.mpr hc
        simp [List.filter_cons, hc', ih]

/-- Stability of the sort: for every score value, the entries holding that
score appear in the sorted list exactly as they appear in the input. -/
lemma sortDesc_filter (l : List MatchResult) (c : Nat) :
    (sortDesc l).filter (fun x => x.score == c) =
      l.filter (fun x => x.score == c) := by
  induction l with
  | nil => rfl
  | cons y t ih => rw [sortDesc, insertDesc_filter, List.filter_cons,
      List.filter_cons, ih]

/-- Every candidate comes from the catalog with its relevance score, and enters
only when its rules are empty or the filter passes. -/
lemma candidates_mem (p : CitizenProfile) (cat : List Scheme) (m : MatchResult)
    (h : m ∈ candidates p cat) :
    m.scheme ∈ cat ∧ m.score = _relevance_score p m.scheme ∧
      (m.scheme.eligibility.isEmptyDict = true ∨
        _passes_filter p m.scheme.eligibility = true) := by
  induction cat with
  | nil => cases h
  | cons s t ih =>
    rw [candidates] at h
    split at h
    · rename_i hcond
      rcases List.mem_cons.mp h with rfl | ht
      · exact ⟨List.mem_cons_self s t, rfl, by simpa using hcond⟩
      · obtain ⟨h1, h2, h3⟩ := ih ht
        exact ⟨List.mem_cons_of_mem s h1, h2, h3⟩
    · obtain ⟨h1, h2, h3⟩ := ih h
      exact ⟨List.mem_cons_of_mem s h1, h2, h3⟩

/-- When every catalog scheme has non-empty rules and fails the filter, no
candidate is collected. -/
lemma candidates_nil_of_none (p : CitizenProfile) (cat : List Scheme)
    (h : ∀ s ∈ cat, s.eligibility.isEmptyDict = false ∧
      _passes_filter p s.eligibility = false) :
    candidates p cat = [] := by
  induction cat with
  | nil => rfl
  | cons s t ih =>
    rw [candidates]
    rw [if_neg]
    · exact ih (fun s' hs' => h s' (List.mem_cons_of_mem s hs'))
    · have hs := h s (List.mem_cons_self s t)
      simp [hs.1, hs.2]

/-- C5: the sequence returned by `match_schemes` is sorted by score in
descending order, and it is a stable rearrangement of the candidate list: for
every score value, the entries holding that score form an initial segment of
the equal-score entries of the candidate list, which itself lists the catalog's
passing schemes in catalog order — so equal-score entries keep their relative
catalog order. -/
theorem C5_sorted_descending_stable (p : CitizenProfile) (cat : List Scheme)
    (k : Nat) :
    (match_schemes p cat k).Pairwise (fun a b => b.score ≤ a.score) ∧
    ∀ c, ∃ rest, (candidates p cat).filter (fun m => m.score == c) =
      (match_schemes p cat k).filter (fun m => m.score == c) ++ rest := by
  constructor
  · exact List.Pairwise.sublist (List.take_sublist k _)
      (sortDesc_sorted (candidates p cat))
  · intro c
    refine ⟨((sortDesc (candidates p cat)).drop k).filter
      (fun m => m.score == c), ?_⟩
    rw [match_schemes, ← List.filter_append, List.take_append_drop,
      sortDesc_filter]

/-- C6: `match_schemes` returns at most `max_results` entries; every returned
entry with a non-empty rule set passes the eligibility filter; and when no
catalog scheme is eligible the result is the empty sequence. -/
theorem C6_truncation_and_filtering (p : CitizenProfile) (cat : List Scheme)
    (k : Nat) :
    (match_schemes p cat k).length ≤ k ∧
    (∀ m ∈ match_schemes p cat k, m.scheme.eligibility.isEmptyDict = false →
      _passes_filter p m.scheme.eligibility = true) ∧
    ((∀ s ∈ cat, s.eligibility.isEmptyDict = false ∧
        _passes_filter p s.eligibility = false) →
      match_schemes p cat k = []) := by
  refine ⟨?_, ?_, ?_⟩
  · rw [match_schemes]
    exact List.length_take_le k _
  · intro m hm hne
    have hmem : m ∈ candidates p cat :=
      (sortDesc_mem m _).mp (List.mem_of_mem_take hm)
    rcases (candidates_mem p cat m hmem).2.2 with he | hp
    · rw [hne] at he; cases he
    · exact hp
  · intro h
    rw [match_schemes, candidates_nil_of_none p cat h, sortDesc,
      List.take_nil]

/-- Witness for C6: the Scenario A scheme returned for the Scenario A profile
passes its (non-empty) rule set, and a catalog whose only scheme the
70-year-old fails yields the empty sequence. -/
theorem C6_truncation_and_filtering_witness :
    _passes_filter scenarioAProfile scenarioAScheme.eligibility = true ∧
    match_schemes seniorProfile [ageCapScheme] 7 = [] :=
  ⟨(C6_truncation_and_filtering scenarioAProfile [scenarioAScheme] 1).2.1
      ⟨scenarioAScheme, 65⟩ (by decide) (by decide),
    (C6_truncation_and_filtering seniorProfile [ageCapScheme] 7).2.2
      (by decide)⟩

/-- C7: a rule set with no rule keys passes the filter for every profile
(universal eligibility), and a scheme whose eligibility rule set is empty is
always included in the candidate matches collected by `match_schemes`. -/
theorem C7_universal_eligibility (p : CitizenProfile) (r : Rules)
    (cat : List Scheme) (s : Scheme) :
    (r.isEmptyDict = true → _passes_filter p r = true) ∧
    (s ∈ cat → s.eligibility.isEmptyDict = true →
      ∃ m ∈ candidates p cat, m.scheme = s) := by
  constructor
  · intro h
    rw [Rules.isEmptyDict] at h
    simp only [Bool.and_eq_true, Option.isNone_iff_eq_none] at h
    obtain ⟨⟨⟨⟨⟨⟨⟨⟨⟨⟨⟨h1, h2⟩, h3⟩, h4⟩, h5⟩, h6⟩, h7⟩, h8⟩, h9⟩, h10⟩, h11⟩,
      h12⟩ := h
    rw [_passes_filter, ageOk, genderOk, stateOk, occupationOk, categoryOk,
      incomeOk, bplOk, disabilityOk, landOk, maritalOk,
      h1, h2, h3, h4, h5, h6, h7, h8, h9, h10, h11, h12]
    rfl
  · intro hmem hempty
    induction cat with
    | nil => cases hmem
    | cons s0 t ih =>
      rw [candidates]
      rcases List.mem_cons.mp hmem with rfl | ht
      · rw [if_pos (by simp [hempty])]
        exact ⟨_, List.mem_cons_self _ _, rfl⟩
      · split
        · obtain ⟨m, hm, hs⟩ := ih ht
          exact ⟨m, List.mem_cons_of_mem _ hm, hs⟩
        · exact ih ht

/-- Witness for C7: the empty rule set passes for the 70-year-old profile, and
the universal scheme is among the candidates of a two-scheme catalog. -/
theorem C7_universal_eligibility_witness :
    _passes_filter seniorProfile {} = true ∧
    (∃ m ∈ candidates seniorProfile [universalScheme, ageCapScheme],
      m.scheme = universalScheme) :=
  ⟨(C7_universal_eligibility seniorProfile {} [universalScheme, ageCapScheme]
      universalScheme).1 (by decide),
    (C7_universal_eligibility seniorProfile {} [universalScheme, ageCapScheme]
      universalScheme).2 (by decide) (by decide)⟩

/-! ### Claim C8 -/

/-- C8: the scheme-discovery handler returns a single profiling question (and
does not invoke the matcher) exactly when `get_profiling_question` yields a
pending question and the profile's completeness score is below 0.5; otherwise
it invokes `match_schemes` on the profile (default `max_results` 7) and returns
its matches. -/
theorem C8_discovery_branch (p : CitizenProfile) (cat : List Scheme) :
    (∀ q, handleSchemeDiscovery p cat = .question q ↔
      (get_profiling_question p = some q ∧
        p.completeness_score < (0.5 : ℚ))) ∧
    (¬((get_profiling_question p).isSome = true ∧
        p.completeness_score < (0.5 : ℚ)) →
      handleSchemeDiscovery p cat = .matched (match_schemes p cat 7)) := by
  cases hg : get_profiling_question p with
  | none =>
    refine ⟨fun q => ?_, fun _ => ?_⟩
    · simp only [handleSchemeDiscovery, hg]
      constructor
      · intro h; cases h
      · rintro ⟨h1, -⟩; cases h1
    · simp only [handleSchemeDiscovery, hg]
  | some q0 =>
    by_cases hc : p.completeness_score < (0.5 : ℚ)
    · refine ⟨fun q => ?_, fun hn => absurd ⟨rfl, hc⟩ hn⟩
      simp only [handleSchemeDiscovery, hg, if_pos hc]
      constructor
      · intro h
        injection h with h'
        exact ⟨h' ▸ rfl, hc⟩
      · rintro ⟨h1, -⟩
        injection h1 with h'
        rw [h']
    · refine ⟨fun q => ?_, fun _ => ?_⟩
      · simp only [handleSchemeDiscovery, hg, if_neg hc]
        constructor
        · intro h; cases h
        · rintro ⟨-, h2⟩; exact absurd h2 hc
      · simp only [handleSchemeDiscovery, hg, if_neg hc]

/-- Witness for C8: the empty profile (completeness 0 < 0.5) gets the "age"
question; the Scenario A profile (no pending question) gets the matcher's
results. -/
theorem C8_discovery_branch_witness :
    handleSchemeDiscovery emptyProfile [] = .question "age" ∧
    handleSchemeDiscovery scenarioAProfile [scenarioAScheme] =
      .matched (match_schemes scenarioAProfile [scenarioAScheme] 7) := by
  have hg : get_profiling_question emptyProfile = some "age" :=
    (gpq_eq emptyProfile).trans (by decide)
  have hga : get_profiling_question scenarioAProfile = none :=
    (gpq_eq scenarioAProfile).trans (by decide)
  have hc : emptyProfile.completeness_score < (0.5 : ℚ) :=
    (lt_05_iff emptyProfile).mpr (by decide)
  exact ⟨((C8_discovery_branch emptyProfile []).1 "age").mpr ⟨hg, hc⟩,
    (C8_discovery_branch scenarioAProfile [scenarioAScheme]).2 (by simp [hga])⟩

/-! ### Claim C10 -/

/-- Looking a key up in a concatenated dict scans the chunks left to right. -/
lemma lookup_append (k : String) (l₁ l₂ : List (String × Val)) :
    (l₁ ++ l₂).lookup k = (l₁.lookup k).or (l₂.lookup k) := by
  induction l₁ with
  | nil => simp [List.lookup]
  | cons a t ih =>
    rcases a with ⟨k', v⟩
    by_cases h : k == k'
    · simp [List.lookup, h]
    · simp only [List.cons_append, List.lookup, h]
      exact ih

/-- Looking up a single optional entry. -/
lemma lookup_entry (k k' : String) (v : Option Val) :
    (entry k' v).lookup k = if (k == k') = true then v else none := by
  cases v with
  | none => simp [entry, List.lookup]
  | some x =>
    by_cases h : k == k'
    · simp [entry, List.lookup, h]
    · simp [entry, List.lookup, h]

/-- Encoding an optional integer field and decoding it is the identity. -/
lemma map_i_bind (o : Option Int) : (o.map Val.i).bind asInt = o := by
  cases o <;> rfl

/-- Encoding an optional string field and decoding it is the identity. -/
lemma map_s_bind (o : Option String) : (o.map Val.s).bind asStr = o := by
  cases o <;> rfl

/-- Encoding an optional boolean field and decoding it is the identity. -/
lemma map_b_bind (o : Option Bool) : (o.map Val.b).bind asBool = o := by
  cases o <;> rfl

/-- C10: rebuilding a `CitizenProfile` from its `to_dict` output — which omits
every null field — restores the original profile exactly: omitted fields
re-default to null and present fields are restored, so the round-trip is
lossless. -/
theorem C10_to_dict_roundtrip (p : CitizenProfile) :
    profileFromDict p.to_dict = p := by
  simp [profileFromDict, CitizenProfile.to_dict, lookup_append, lookup_entry,
    map_i_bind, map_s_bind, map_b_bind]

end LokSarthi
